import Mathlib

/-!
Verification of `scripts/upscale-app-icon.py` (money-tracker repository).

The script is a one-shot CLI pipeline: validate argv, acquire an image
(local file or HTTP(S) URL via a temporary file), decode it with Pillow and
convert to RGBA, resize to 1024x1024 with `Image.NEAREST`, and save it as a
PNG to a fixed path derived from the script's own location.

The embedding below models the script as a pure function `main` from an
explicit environment `Env` (argv, cwd, filesystem contents, network fetch
oracle, image decoder oracle) to a `RunResult` recording the observable
effects: exit code, stdout/stderr lines, the file written (if any), the
directory-creation call, the URLs fetched, the local paths checked, and
whether the temporary download file still exists when the process exits.

Library-call semantics embedded here:
* `Image.resize((1024, 1024), Image.NEAREST)`: Pillow dispatches NEAREST
  resizing to `ImagingScaleAffine` (Geometry.c), which samples the source at
  the centre of each destination pixel: the source column for destination
  column `x` is `floor((x + 0.5) * srcW / dstW)`, computed by starting an
  accumulator at `a0 * 0.5` (`a0 = srcW / dstW`) and adding `a0` per column.
  We mirror that accumulator loop exactly, in exact rational arithmetic with
  fixed denominator `2 * dstW` (the float computation is exact for the
  concrete sizes used in the theorems below).
* `os.path.abspath` / `os.path.join` / `os.path.dirname`: POSIX semantics
  over '/'-separated components; `abspath` of an already-absolute path does
  not consult the working directory.
* `str.strip()`: removes leading and trailing whitespace.
* `__file__` is an absolute path (Python >= 3.9 absolutises
  `__main__.__file__`); theorems that need this carry it as a hypothesis.
* An uncaught Python exception terminates the process with exit code 1 and
  a traceback on stderr.
* `tempfile.NamedTemporaryFile(suffix=".png", delete=False)` creates a file
  that is NOT removed when the `with` block exits; only the explicit
  `os.unlink` in the `finally` clause removes it.
-/

set_option maxRecDepth 8000

/-- One pixel of an RGBA buffer: red, green, blue, alpha channels. -/
structure RGBA where
  r : Nat
  g : Nat
  b : Nat
  a : Nat
deriving DecidableEq, Repr

/-- An in-memory Pillow image: a mode string (e.g. "RGBA"), dimensions, and
the pixel at each coordinate (meaningful for `0 <= x < width`,
`0 <= y < height`). -/
structure PILImage where
  mode : String
  width : Nat
  height : Nat
  px : Nat → Nat → RGBA

/-- Models `img.convert("RGBA")` (line 41/49): the result has mode "RGBA". -/
def convertRGBA (img : PILImage) : PILImage :=
  { img with mode := "RGBA" }

/-- The column-index table built by Pillow's `ImagingScaleAffine` for a
NEAREST resize: the accumulator starts at `a0 * 0.5` and advances by
`a0 = srcW / dstW` per destination column; each entry is the floor of the
accumulator. Represented exactly as a numerator over the fixed denominator
`den = 2 * dstW`, so the step is `twoSrc = 2 * srcW`. -/
def scaleTabAux (twoSrc den : Nat) : Nat → Nat → List Nat
  | 0, _ => []
  | k + 1, num => num / den :: scaleTabAux twoSrc den k (num + twoSrc)

/-- Source-index table for one axis of a Pillow NEAREST resize from `srcW`
to `dstW` pixels: entry `x` is `floor((x + 0.5) * srcW / dstW)`. -/
def scaleTab (srcW dstW : Nat) : List Nat :=
  scaleTabAux (2 * srcW) (2 * dstW) dstW srcW

/-- Models `img.resize((w, h), Image.NEAREST)` (line 52): each destination
pixel copies the source pixel whose index comes from the per-axis
`ImagingScaleAffine` tables; the mode is preserved. -/
def resizeNearest (img : PILImage) (w h : Nat) : PILImage :=
  { mode := img.mode
    width := w
    height := h
    px := fun x y =>
      img.px ((scaleTab img.width w).getD x 0) ((scaleTab img.height h).getD y 0) }

/-- Whitespace characters removed by Python `str.strip()` (ASCII range). -/
def pyIsSpace (c : Char) : Bool :=
  c = ' ' || c = '\t' || c = '\n' || c = '\r' || c = '\x0b' || c = '\x0c'

/-- Models Python `str.strip()` on the underlying character list: drop
whitespace from the front, then from the back. -/
def stripList (l : List Char) : List Char :=
  ((l.dropWhile pyIsSpace).reverse.dropWhile pyIsSpace).reverse

/-- Models Python `sys.argv[1].strip()` (line 35). -/
def pyStrip (s : String) : String :=
  ⟨stripList s.data⟩

/-- Split a character list into its '/'-separated components. -/
def splitSlash : List Char → List (List Char)
  | [] => [[]]
  | c :: cs =>
    match splitSlash cs with
    | [] => [[c]]
    | g :: gs => if c = '/' then [] :: g :: gs else (c :: g) :: gs

/-- Join components with '/' separators. -/
def joinSlash (comps : List (List Char)) : List Char :=
  List.intercalate ['/'] comps

/-- POSIX path normalisation on components of an absolute path: empty and
"." components are dropped, ".." removes the previous component (and is
dropped at the root). -/
def normStep (acc : List (List Char)) (c : List Char) : List (List Char) :=
  if c = [] || c = ['.'] then acc
  else if c = ['.', '.'] then acc.dropLast
  else acc ++ [c]

/-- Normalise a component list (absolute-path semantics). -/
def normComps (l : List (List Char)) : List (List Char) :=
  l.foldl normStep []

/-- True when the path string is absolute (begins with '/'). -/
def isAbsPath (s : String) : Bool :=
  match s.data with
  | c :: _ => c = '/'
  | [] => false

/-- Models `os.path.abspath` (lines 45 and 50): an absolute argument is
normalised as-is (the working directory is not consulted); a relative
argument is joined onto `cwd` first. -/
def pyAbspath (cwd : String) (s : String) : String :=
  let full : List Char :=
    if isAbsPath s then s.data else cwd.data ++ '/' :: s.data
  ⟨'/' :: joinSlash (normComps (splitSlash full))⟩

/-- Models `os.path.dirname`: all components but the last, rejoined. -/
def pyDirname (s : String) : String :=
  ⟨joinSlash ((splitSlash s.data).dropLast)⟩

/-- Models `os.path.join(a, p1, ..., pn)` for relative `p1..pn`: the parts
joined with '/' separators. -/
def pyJoin (d : String) (parts : List String) : String :=
  ⟨joinSlash (d.data :: parts.map String.data)⟩

/-- The fixed relative components of the destination path (lines 20-27). -/
def iconRelParts : List String :=
  ["..", "frontend", "ios", "App", "App", "Assets.xcassets",
   "AppIcon.appiconset", "AppIcon-512@2x.png"]

/-- `ICON_PATH` (lines 18-28): `os.path.join(os.path.dirname(__file__),
"..", "frontend", ..., "AppIcon-512@2x.png")`, as a function of the script's
own path `__file__`. -/
def ICON_PATH (scriptFile : String) : String :=
  pyJoin (pyDirname scriptFile) iconRelParts

/-- The usage message printed to stderr on wrong argument count (line 33). -/
def usageMsg : String :=
  "Usage: python3 upscale-app-icon.py <path_or_url>"

/-- Stderr line standing for the traceback of an uncaught Python exception
(its exact text is interpreter-dependent and never inspected by a claim). -/
def tracebackMsg : String :=
  "Traceback (most recent call last):"

/-- The URL dispatch condition of line 36:
`src.startswith("http://") or src.startswith("https://")`, as a character
prefix test on the underlying character list. -/
def isUrlStr (s : String) : Bool :=
  "http://".data.isPrefixOf s.data || "https://".data.isPrefixOf s.data

/-- A file written by `resized.save(out_path, "PNG")` (line 53): destination
path, format string, and image content. -/
structure SavedFile where
  path : String
  format : String
  image : PILImage

/-- The environment a single run executes in: `sys.argv` (program name
included), the script's `__file__`, the working directory, the filesystem
(`fileData p = some bytes` iff a regular readable file with those bytes
exists at absolute path `p`, models `os.path.isfile` plus reading), the
network (`fetch url = some bytes` iff `urllib.request.urlretrieve`
succeeds and stores those bytes; `none` means it raises), the decoder
(`decode bytes = some img` iff `PIL.Image.open` succeeds on those bytes;
`none` means it raises), and whether a file already exists at the
destination (never consulted by the script: it overwrites). -/
structure Env where
  argv : List String
  scriptFile : String
  cwd : String
  fileData : String → Option (List Nat)
  fetch : String → Option (List Nat)
  decode : List Nat → Option PILImage
  destExists : Bool

/-- The observable outcome of one run: process exit code, the lines written
to stdout and stderr, the file written to the destination (if any), the
argument of the `os.makedirs` call (if reached), the URLs passed to
`urlretrieve`, the local paths passed to `os.path.isfile`, and whether the
temporary download file still exists on disk when the process exits. -/
structure RunResult where
  exitCode : Nat
  stdout : List String
  stderr : List String
  written : Option SavedFile
  madeDirs : Option String
  fetched : List String
  localChecked : Option String
  tmpAtExit : Bool

/-- Lines 50-54 of the script, reached with a successfully decoded image:
compute `out_path`, create its parent directories, resize to 1024x1024 with
NEAREST, save as PNG, print the success line; the process then exits 0. -/
def finishRun (env : Env) (img : PILImage) (fetchedUrls : List String)
    (checked : Option String) : RunResult :=
  let outPath := pyAbspath env.cwd (ICON_PATH env.scriptFile)
  let resized := resizeNearest img 1024 1024
  { exitCode := 0
    stdout := ["Saved 1024x1024 app icon to " ++ outPath]
    stderr := []
    written := some { path := outPath, format := "PNG", image := resized }
    madeDirs := some (pyDirname outPath)
    fetched := fetchedUrls
    localChecked := checked
    tmpAtExit := false }

/-- The URL arm of the dispatch (lines 37-43). The `with
NamedTemporaryFile(suffix=".png", delete=False)` block creates the
temporary file; `urlretrieve(src, f.name)` fills it. If the fetch raises,
the exception propagates: the `with` exit does not delete the file
(`delete=False`) and no handler runs, so the temporary file is still on
disk when the process exits with the traceback. Otherwise
`Image.open(path).convert("RGBA")` runs inside `try/finally
os.unlink(path)`, so from that point the temporary file is always removed,
whether decoding raises or the run completes. -/
def handleUrl (env : Env) (src : String) : RunResult :=
  match env.fetch src with
  | none =>
    { exitCode := 1, stdout := [], stderr := [tracebackMsg], written := none,
      madeDirs := none, fetched := [src], localChecked := none, tmpAtExit := true }
  | some bytes =>
    match env.decode bytes with
    | none =>
      { exitCode := 1, stdout := [], stderr := [tracebackMsg], written := none,
        madeDirs := none, fetched := [src], localChecked := none, tmpAtExit := false }
    | some img => finishRun env (convertRGBA img) [src] none

/-- The local-path arm of the dispatch (lines 44-49): resolve the argument
to an absolute path, fail with "Not a file: ..." and exit code 1 when
`os.path.isfile` is false there, otherwise decode (an undecodable file
raises, terminating the run with a traceback and exit code 1). -/
def handleLocal (env : Env) (src : String) : RunResult :=
  let path := pyAbspath env.cwd src
  if (env.fileData path).isNone then
    { exitCode := 1, stdout := [], stderr := ["Not a file: " ++ path], written := none,
      madeDirs := none, fetched := [], localChecked := some path, tmpAtExit := false }
  else
    match (env.fileData path).bind env.decode with
    | none =>
      { exitCode := 1, stdout := [], stderr := [tracebackMsg], written := none,
        madeDirs := none, fetched := [], localChecked := some path, tmpAtExit := false }
    | some img => finishRun env (convertRGBA img) [] (some path)

/-- The `main` function of the script (lines 31-54): argument-count check
(32-34), `src = sys.argv[1].strip()` (35), then the URL / local-path
dispatch of line 36. (Named `Script.main` because Lean reserves the bare
name `main` for executable entry points.) -/
def Script.main (env : Env) : RunResult :=
  if env.argv.length ≠ 2 then
    { exitCode := 1, stdout := [], stderr := [usageMsg], written := none,
      madeDirs := none, fetched := [], localChecked := none, tmpAtExit := false }
  else
    let src := pyStrip (env.argv.getD 1 "")
    if isUrlStr src then handleUrl env src
    else handleLocal env src

/-! ## Closed form and bounds for the NEAREST index tables -/

theorem scaleTabAux_getD (t d : Nat) :
    ∀ (k num x : Nat), x < k →
      (scaleTabAux t d k num).getD x 0 = (num + t * x) / d := by
  intro k
  induction k with
  | zero => intro num x hx; omega
  | succ k ih =>
    intro num x hx
    cases x with
    | zero => simp [scaleTabAux]
    | succ x =>
      have h := ih (num + t) x (by omega)
      simp only [scaleTabAux, List.getD_cons_succ, h]
      congr 1
      ring

theorem scaleTab_getD (s W x : Nat) (hx : x < W) :
    (scaleTab s W).getD x 0 = (2 * x + 1) * s / (2 * W) := by
  unfold scaleTab
  rw [scaleTabAux_getD (2 * s) (2 * W) W s x hx]
  congr 1
  ring

theorem scaleTab_index_lt (s W x : Nat) (hx : x < W) (hs : 0 < s) :
    (2 * x + 1) * s / (2 * W) < s := by
  apply Nat.div_lt_of_lt_mul
  exact mul_lt_mul_of_pos_right (by omega) hs

/-- A 3-pixel-wide test image whose pixels differ column by column. -/
def stripedImg : PILImage :=
  { mode := "RGBA", width := 3, height := 1, px := fun x _ => ⟨x, 0, 0, 255⟩ }

/-- C8: the claim's corner-based index formula
`floor(x * src_w / 1024)` disagrees with the code at source width 3 and
output column 341: Pillow's centre sampling reads source column 1 there
(`floor((341 + 0.5) * 3 / 1024) = 1`), the claim predicts column 0. -/
theorem C8_counterexample :
    (resizeNearest stripedImg 1024 1024).px 341 0 ≠
      stripedImg.px (341 * stripedImg.width / 1024) (0 * stripedImg.height / 1024) := by
  decide

/-- C8 (amended): each output pixel `(x, y)` of the 1024x1024 NEAREST
resize equals the source pixel at
`(floor((2x+1) * src_w / 2048), floor((2y+1) * src_h / 2048))`, i.e. at
`(floor((x+0.5) * src_w / 1024), floor((y+0.5) * src_h / 1024))`. -/
theorem C8_center_mapping (img : PILImage) (x y : Nat)
    (hx : x < 1024) (hy : y < 1024) :
    (resizeNearest img 1024 1024).px x y =
      img.px ((2 * x + 1) * img.width / 2048) ((2 * y + 1) * img.height / 2048) := by
  show img.px _ _ = _
  rw [scaleTab_getD img.width 1024 x hx, scaleTab_getD img.height 1024 y hy]

/-- C8 witness: the amended mapping evaluated at output coordinate
(341, 0) of the striped test image. -/
theorem C8_center_mapping_witness :
    341 < 1024 ∧ 0 < 1024 ∧
      (resizeNearest stripedImg 1024 1024).px 341 0 =
        stripedImg.px ((2 * 341 + 1) * stripedImg.width / 2048)
          ((2 * 0 + 1) * stripedImg.height / 2048) :=
  ⟨by decide, by decide, C8_center_mapping stripedImg 341 0 (by decide) (by decide)⟩

/-- C9: nearest-neighbour resizing to 1024x1024 is invariant on constant
images: if every source pixel has value `c` (and the source has at least
one pixel in each direction), every output pixel has value `c`. -/
theorem C9_uniform (img : PILImage) (c : RGBA)
    (hw : 0 < img.width) (hh : 0 < img.height)
    (hc : ∀ x y, x < img.width → y < img.height → img.px x y = c)
    (x y : Nat) (hx : x < 1024) (hy : y < 1024) :
    (resizeNearest img 1024 1024).px x y = c := by
  show img.px _ _ = c
  rw [scaleTab_getD img.width 1024 x hx, scaleTab_getD img.height 1024 y hy]
  exact hc _ _ (scaleTab_index_lt img.width 1024 x hx hw)
    (scaleTab_index_lt img.height 1024 y hy hh)

/-- A 2x2 solid-colour test image. -/
def solidImg : PILImage :=
  { mode := "RGBA", width := 2, height := 2, px := fun _ _ => ⟨7, 8, 9, 255⟩ }

/-- C9 witness: the uniform-image theorem applied to a concrete 2x2 solid
image at output coordinate (5, 7). -/
theorem C9_uniform_witness :
    0 < solidImg.width ∧ 0 < solidImg.height ∧ 5 < 1024 ∧ 7 < 1024 ∧
      (resizeNearest solidImg 1024 1024).px 5 7 = ⟨7, 8, 9, 255⟩ :=
  ⟨by decide, by decide, by decide, by decide,
    C9_uniform solidImg ⟨7, 8, 9, 255⟩ (by decide) (by decide)
      (fun _ _ _ _ => rfl) 5 7 (by decide) (by decide)⟩

/-! ## Python `str.strip()` is idempotent -/

theorem dropWhile_dropWhile (p : Char → Bool) (l : List Char) :
    (l.dropWhile p).dropWhile p = l.dropWhile p := by
  induction l with
  | nil => rfl
  | cons x xs ih =>
    by_cases h : p x
    · rw [List.dropWhile_cons_of_pos h, ih]
    · rw [List.dropWhile_cons_of_neg h, List.dropWhile_cons_of_neg h]

theorem dropWhile_eq_self_of_isPre (p : Char → Bool) (l' l : List Char)
    (hpre : l' <+: l) (hl : List.dropWhile p l = l) :
    List.dropWhile p l' = l' := by
  cases l' with
  | nil => rfl
  | cons a t =>
    have hx : p a = false := by
      obtain ⟨r, hr⟩ := hpre
      have hmatch := List.head?_dropWhile_not p l
      rw [hl, ← hr] at hmatch
      exact hmatch
    rw [List.dropWhile_cons_of_neg (by simp [hx])]

theorem stripList_isPre_left (l : List Char) :
    stripList l <+: List.dropWhile pyIsSpace l := by
  unfold stripList
  have hs := List.dropWhile_suffix (l := (List.dropWhile pyIsSpace l).reverse) pyIsSpace
  have h := List.reverse_prefix.mpr hs
  simpa using h

theorem stripList_idem (l : List Char) : stripList (stripList l) = stripList l := by
  have hA : List.dropWhile pyIsSpace (List.dropWhile pyIsSpace l) =
      List.dropWhile pyIsSpace l := dropWhile_dropWhile _ _
  have h1 : List.dropWhile pyIsSpace (stripList l) = stripList l :=
    dropWhile_eq_self_of_isPre _ _ _ (stripList_isPre_left l) hA
  show ((List.dropWhile pyIsSpace (stripList l)).reverse.dropWhile pyIsSpace).reverse
      = stripList l
  rw [h1]
  have hrev : (stripList l).reverse = (l.dropWhile pyIsSpace).reverse.dropWhile pyIsSpace := by
    unfold stripList
    rw [List.reverse_reverse]
  have h2 : (stripList l).reverse.dropWhile pyIsSpace = (stripList l).reverse := by
    rw [hrev, dropWhile_dropWhile]
  rw [h2, List.reverse_reverse]

theorem pyStrip_idem (s : String) : pyStrip (pyStrip s) = pyStrip s :=
  congrArg String.mk (stripList_idem s.data)
/-! ## Inversion helpers for the branches of `Script.main` -/

theorem argv_pair_of_length (l : List String) (h : l.length = 2) :
    ∃ p a, l = [p, a] := by
  cases l with
  | nil => simp at h
  | cons p t =>
    cases t with
    | nil => simp at h
    | cons a t2 =>
      cases t2 with
      | nil => exact ⟨p, a, rfl⟩
      | cons c t3 => simp only [List.length_cons] at h; omega

theorem main_wrong_argc (env : Env) (h : env.argv.length ≠ 2) :
    Script.main env =
      { exitCode := 1, stdout := [], stderr := [usageMsg], written := none,
        madeDirs := none, fetched := [], localChecked := none, tmpAtExit := false } := by
  unfold Script.main
  rw [if_pos h]

theorem main_dispatch (env : Env) (prog arg : String) (h : env.argv = [prog, arg]) :
    Script.main env =
      if isUrlStr (pyStrip arg) then handleUrl env (pyStrip arg)
      else handleLocal env (pyStrip arg) := by
  unfold Script.main
  simp [h]

theorem main_url (env : Env) (prog arg : String) (h : env.argv = [prog, arg])
    (hurl : isUrlStr (pyStrip arg) = true) :
    Script.main env = handleUrl env (pyStrip arg) := by
  rw [main_dispatch env prog arg h, if_pos hurl]

theorem main_local (env : Env) (prog arg : String) (h : env.argv = [prog, arg])
    (hurl : isUrlStr (pyStrip arg) = false) :
    Script.main env = handleLocal env (pyStrip arg) := by
  rw [main_dispatch env prog arg h, if_neg (by simp [hurl])]

theorem handleUrl_tmpAtExit (env : Env) (s : String) :
    (handleUrl env s).tmpAtExit = true ↔ env.fetch s = none := by
  cases hf : env.fetch s with
  | none => simp [handleUrl, hf]
  | some bytes =>
    cases hd : env.decode bytes with
    | none => simp [handleUrl, hf, hd]
    | some img => simp [handleUrl, hf, hd, finishRun]

theorem handleLocal_tmpAtExit (env : Env) (s : String) :
    (handleLocal env s).tmpAtExit = false := by
  cases hfd : env.fileData (pyAbspath env.cwd s) with
  | none => simp [handleLocal, hfd]
  | some bytes =>
    cases hd : env.decode bytes with
    | none => simp [handleLocal, hfd, hd]
    | some img => simp [handleLocal, hfd, hd, finishRun]

theorem handleUrl_trace (env : Env) (s : String) :
    (handleUrl env s).fetched = [s] ∧ (handleUrl env s).localChecked = none := by
  cases hf : env.fetch s with
  | none => simp [handleUrl, hf]
  | some bytes =>
    cases hd : env.decode bytes with
    | none => simp [handleUrl, hf, hd]
    | some img => simp [handleUrl, hf, hd, finishRun]

theorem handleLocal_trace (env : Env) (s : String) :
    (handleLocal env s).fetched = [] ∧
      (handleLocal env s).localChecked = some (pyAbspath env.cwd s) := by
  cases hfd : env.fileData (pyAbspath env.cwd s) with
  | none => simp [handleLocal, hfd]
  | some bytes =>
    cases hd : env.decode bytes with
    | none => simp [handleLocal, hfd, hd]
    | some img => simp [handleLocal, hfd, hd, finishRun]

theorem handleUrl_success (env : Env) (s : String)
    (h : (handleUrl env s).exitCode = 0) :
    ∃ bytes img, env.fetch s = some bytes ∧ env.decode bytes = some img ∧
      handleUrl env s = finishRun env (convertRGBA img) [s] none := by
  cases hf : env.fetch s with
  | none => simp [handleUrl, hf] at h
  | some bytes =>
    cases hd : env.decode bytes with
    | none => simp [handleUrl, hf, hd] at h
    | some img =>
      exact ⟨bytes, img, rfl, hd, by simp [handleUrl, hf, hd]⟩

theorem handleLocal_success (env : Env) (s : String)
    (h : (handleLocal env s).exitCode = 0) :
    ∃ bytes img, env.fileData (pyAbspath env.cwd s) = some bytes ∧
      env.decode bytes = some img ∧
      handleLocal env s = finishRun env (convertRGBA img) []
        (some (pyAbspath env.cwd s)) := by
  cases hfd : env.fileData (pyAbspath env.cwd s) with
  | none => simp [handleLocal, hfd] at h
  | some bytes =>
    cases hd : env.decode bytes with
    | none => simp [handleLocal, hfd, hd] at h
    | some img =>
      exact ⟨bytes, img, rfl, hd, by simp [handleLocal, hfd, hd]⟩

theorem main_success_cases (env : Env) (h : (Script.main env).exitCode = 0) :
    ∃ prog arg bytes img,
      env.argv = [prog, arg] ∧ env.decode bytes = some img ∧
      ((isUrlStr (pyStrip arg) = true ∧ env.fetch (pyStrip arg) = some bytes ∧
          Script.main env = finishRun env (convertRGBA img) [pyStrip arg] none) ∨
        (isUrlStr (pyStrip arg) = false ∧
          env.fileData (pyAbspath env.cwd (pyStrip arg)) = some bytes ∧
          Script.main env = finishRun env (convertRGBA img) []
            (some (pyAbspath env.cwd (pyStrip arg))))) := by
  by_cases hlen : env.argv.length = 2
  · obtain ⟨prog, arg, hpa⟩ := argv_pair_of_length env.argv hlen
    by_cases hurl : isUrlStr (pyStrip arg) = true
    · have hm := main_url env prog arg hpa hurl
      rw [hm] at h
      obtain ⟨bytes, img, hf, hd, hu⟩ := handleUrl_success env (pyStrip arg) h
      exact ⟨prog, arg, bytes, img, hpa, hd, Or.inl ⟨hurl, hf, by rw [hm, hu]⟩⟩
    · have hurl2 : isUrlStr (pyStrip arg) = false := by simpa using hurl
      have hm := main_local env prog arg hpa hurl2
      rw [hm] at h
      obtain ⟨bytes, img, hfd, hd, hl⟩ := handleLocal_success env (pyStrip arg) h
      exact ⟨prog, arg, bytes, img, hpa, hd, Or.inr ⟨hurl2, hfd, by rw [hm, hl]⟩⟩
  · exfalso
    rw [main_wrong_argc env hlen] at h
    simp at h

/-! ## Absoluteness of the destination path -/

theorem splitSlash_ne_nil (l : List Char) : splitSlash l ≠ [] := by
  cases l with
  | nil => simp [splitSlash]
  | cons c cs =>
    unfold splitSlash
    cases h : splitSlash cs with
    | nil => simp
    | cons g gs => by_cases hc : c = '/' <;> simp [hc]

theorem splitSlash_cons_slash (cs : List Char) :
    splitSlash ('/' :: cs) = [] :: splitSlash cs := by
  cases h : splitSlash cs with
  | nil => exact absurd h (splitSlash_ne_nil cs)
  | cons g gs =>
    rw [splitSlash, h]
    simp

theorem joinSlash_cons₂ (x y : List Char) (zs : List (List Char)) :
    joinSlash (x :: y :: zs) = x ++ '/' :: joinSlash (y :: zs) := by
  simp [joinSlash, List.intercalate]

theorem joinSlash_abs (d p : List Char) (ps : List (List Char))
    (hd : d = [] ∨ ∃ t, d = '/' :: t) :
    ∃ u, joinSlash (d :: p :: ps) = '/' :: u := by
  rcases hd with rfl | ⟨t, rfl⟩
  · rw [joinSlash_cons₂]
    exact ⟨joinSlash (p :: ps), rfl⟩
  · rw [joinSlash_cons₂]
    exact ⟨t ++ '/' :: joinSlash (p :: ps), rfl⟩

theorem pyDirname_abs (s : String) (habs : isAbsPath s = true) :
    (pyDirname s).data = [] ∨ ∃ t, (pyDirname s).data = '/' :: t := by
  cases hsd : s.data with
  | nil => unfold isAbsPath at habs; rw [hsd] at habs; simp at habs
  | cons c cs =>
    unfold isAbsPath at habs
    rw [hsd] at habs
    simp at habs
    subst habs
    unfold pyDirname
    rw [hsd, splitSlash_cons_slash]
    cases hsc : splitSlash cs with
    | nil => exact absurd hsc (splitSlash_ne_nil cs)
    | cons g gs =>
      cases gs with
      | nil =>
        left
        show joinSlash (([] :: [g]).dropLast) = []
        rfl
      | cons g2 gs2 =>
        right
        refine ⟨joinSlash (g :: (g2 :: gs2).dropLast), ?_⟩
        show joinSlash (([] :: g :: g2 :: gs2).dropLast) = _
        have hdl : ([] :: g :: g2 :: gs2 : List (List Char)).dropLast
            = [] :: g :: (g2 :: gs2).dropLast := rfl
        rw [hdl, joinSlash_cons₂, List.nil_append]

theorem ICON_PATH_isAbs (s : String) (habs : isAbsPath s = true) :
    isAbsPath (ICON_PATH s) = true := by
  obtain ⟨u, hu⟩ := joinSlash_abs (pyDirname s).data "..".data
    (iconRelParts.tail.map String.data) (pyDirname_abs s habs)
  show isAbsPath ⟨joinSlash ((pyDirname s).data :: iconRelParts.map String.data)⟩ = true
  have hmap : iconRelParts.map String.data
      = "..".data :: iconRelParts.tail.map String.data := rfl
  rw [hmap, hu]
  rfl

theorem pyAbspath_cwd_independent (c c2 s : String) (habs : isAbsPath s = true) :
    pyAbspath c s = pyAbspath c2 s := by
  simp [pyAbspath, habs]

/-! ## Concrete environments for witnesses and counterexamples -/

/-- Bytes standing in for an image file's content in the concrete runs. -/
def sampleBytes : List Nat := [137, 80, 78, 71]

/-- Decoder oracle for the concrete runs: decodes `sampleBytes` to the 2x2
solid image and fails on anything else. -/
def sampleDecode : List Nat → Option PILImage :=
  fun b => if b = sampleBytes then some solidImg else none

/-- The destination path for a script installed at
`/repo/scripts/upscale-app-icon.py`. -/
def repoDest : String :=
  "/repo/frontend/ios/App/App/Assets.xcassets/AppIcon.appiconset/AppIcon-512@2x.png"

/-- A concrete successful local-file run. -/
def okEnv : Env :=
  { argv := ["upscale-app-icon.py", "/work/icon.png"]
    scriptFile := "/repo/scripts/upscale-app-icon.py"
    cwd := "/work"
    fileData := fun p => if p = "/work/icon.png" then some sampleBytes else none
    fetch := fun _ => none
    decode := sampleDecode
    destExists := false }

/-- A concrete URL run whose fetch (urlretrieve) raises. -/
def fetchFailEnv : Env :=
  { argv := ["upscale-app-icon.py", "http://example.com/icon.png"]
    scriptFile := "/repo/scripts/upscale-app-icon.py"
    cwd := "/work"
    fileData := fun _ => none
    fetch := fun _ => none
    decode := sampleDecode
    destExists := false }

/-- A concrete successful URL run. -/
def urlOkEnv : Env :=
  { argv := ["upscale-app-icon.py", "https://example.com/icon.png"]
    scriptFile := "/repo/scripts/upscale-app-icon.py"
    cwd := "/work"
    fileData := fun _ => none
    fetch := fun u => if u = "https://example.com/icon.png" then some sampleBytes else none
    decode := sampleDecode
    destExists := false }

/-- A concrete run invoked with zero positional arguments. -/
def noArgEnv : Env :=
  { argv := ["upscale-app-icon.py"]
    scriptFile := "/repo/scripts/upscale-app-icon.py"
    cwd := "/work"
    fileData := fun _ => none
    fetch := fun _ => none
    decode := sampleDecode
    destExists := false }

/-- A concrete run whose local-path argument names no existing file. -/
def missingFileEnv : Env :=
  { argv := ["upscale-app-icon.py", "missing.png"]
    scriptFile := "/repo/scripts/upscale-app-icon.py"
    cwd := "/work"
    fileData := fun _ => none
    fetch := fun _ => none
    decode := sampleDecode
    destExists := false }

/-- A concrete run whose argument is a URL padded with a leading space. -/
def padUrlEnv : Env :=
  { argv := ["upscale-app-icon.py", " http://example.com/icon.png"]
    scriptFile := "/repo/scripts/upscale-app-icon.py"
    cwd := "/work"
    fileData := fun _ => none
    fetch := fun _ => none
    decode := sampleDecode
    destExists := false }

/-! ## C5, C6: usage error and missing-file error -/

/-- C5: for every invocation whose argument count differs from one
(`len(sys.argv) != 2`), the run prints the usage message to stderr, exits
with code 1, writes nothing to stdout, and writes no output file. -/
theorem C5_wrong_arg_count (env : Env) (h : env.argv.length ≠ 2) :
    (Script.main env).exitCode = 1 ∧ (Script.main env).stderr = [usageMsg] ∧
      (Script.main env).stdout = [] ∧ (Script.main env).written = none := by
  rw [main_wrong_argc env h]
  exact ⟨rfl, rfl, rfl, rfl⟩

/-- C5 witness: the zero-argument run. -/
theorem C5_wrong_arg_count_witness :
    noArgEnv.argv.length ≠ 2 ∧
      (Script.main noArgEnv).exitCode = 1 ∧ (Script.main noArgEnv).stderr = [usageMsg] ∧
      (Script.main noArgEnv).stdout = [] ∧ (Script.main noArgEnv).written = none :=
  ⟨by decide, C5_wrong_arg_count noArgEnv (by decide)⟩

/-- C6: a non-URL argument resolving to an absolute path where no regular
file exists makes the run print "Not a file: <path>" to stderr, exit with
code 1, and write no output file. -/
theorem C6_not_a_file (env : Env) (prog arg : String)
    (h : env.argv = [prog, arg])
    (hurl : isUrlStr (pyStrip arg) = false)
    (hfile : env.fileData (pyAbspath env.cwd (pyStrip arg)) = none) :
    (Script.main env).exitCode = 1 ∧
      (Script.main env).stderr = ["Not a file: " ++ pyAbspath env.cwd (pyStrip arg)] ∧
      (Script.main env).stdout = [] ∧ (Script.main env).written = none := by
  rw [main_local env prog arg h hurl]
  refine ⟨?_, ?_, ?_, ?_⟩ <;> simp [handleLocal, hfile]

/-- C6 witness: the run whose local path names no file. -/
theorem C6_not_a_file_witness :
    missingFileEnv.argv = ["upscale-app-icon.py", "missing.png"] ∧
      isUrlStr (pyStrip "missing.png") = false ∧
      missingFileEnv.fileData
        (pyAbspath missingFileEnv.cwd (pyStrip "missing.png")) = none ∧
      ((Script.main missingFileEnv).exitCode = 1 ∧
        (Script.main missingFileEnv).stderr =
          ["Not a file: " ++ pyAbspath missingFileEnv.cwd (pyStrip "missing.png")] ∧
        (Script.main missingFileEnv).stdout = [] ∧
        (Script.main missingFileEnv).written = none) :=
  ⟨rfl, by decide, rfl,
    C6_not_a_file missingFileEnv _ _ rfl (by decide) rfl⟩

/-! ## C7: URL-versus-local dispatch -/

/-- C7: counterexample to the claim as stated over the raw argument: the
run with argument " http://example.com/icon.png" (leading space) performs
a URL fetch, yet that argument string does not begin with "http://" or
"https://" (dispatch tests the stripped string, line 35/36). -/
theorem C7_counterexample :
    (Script.main padUrlEnv).fetched = ["http://example.com/icon.png"] ∧
      padUrlEnv.argv = ["upscale-app-icon.py", " http://example.com/icon.png"] ∧
      "http://".data.isPrefixOf " http://example.com/icon.png".data = false ∧
      "https://".data.isPrefixOf " http://example.com/icon.png".data = false :=
  ⟨by decide, rfl, by decide, by decide⟩

/-- C7 (amended): the run fetches over HTTP(S) iff the whitespace-stripped
argument begins with "http://" or "https://"; every other argument is
handled as a local filesystem path (resolved to an absolute path and
checked with isfile). -/
theorem C7_dispatch (env : Env) (prog arg : String) (h : env.argv = [prog, arg]) :
    (isUrlStr (pyStrip arg) = true →
      (Script.main env).fetched = [pyStrip arg] ∧
        (Script.main env).localChecked = none) ∧
    (isUrlStr (pyStrip arg) = false →
      (Script.main env).fetched = [] ∧
        (Script.main env).localChecked = some (pyAbspath env.cwd (pyStrip arg))) := by
  constructor
  · intro hurl
    rw [main_url env prog arg h hurl]
    exact handleUrl_trace env (pyStrip arg)
  · intro hurl
    rw [main_local env prog arg h hurl]
    exact handleLocal_trace env (pyStrip arg)

/-- C7 witness: the dispatch characterisation applied to the concrete
successful URL run. -/
theorem C7_dispatch_witness :
    urlOkEnv.argv = ["upscale-app-icon.py", "https://example.com/icon.png"] ∧
      ((isUrlStr (pyStrip "https://example.com/icon.png") = true →
        (Script.main urlOkEnv).fetched = [pyStrip "https://example.com/icon.png"] ∧
          (Script.main urlOkEnv).localChecked = none) ∧
      (isUrlStr (pyStrip "https://example.com/icon.png") = false →
        (Script.main urlOkEnv).fetched = [] ∧
          (Script.main urlOkEnv).localChecked =
            some (pyAbspath urlOkEnv.cwd (pyStrip "https://example.com/icon.png")))) :=
  ⟨rfl, C7_dispatch urlOkEnv _ _ rfl⟩

/-! ## C10: stripping happens before dispatch -/

/-- C10: the argument is stripped of leading and trailing whitespace before
any other processing: a run behaves identically to the same run given the
pre-stripped argument (so dispatch and acquisition operate on the stripped
string). -/
theorem C10_strip_first (env : Env) (prog arg : String)
    (h : env.argv = [prog, arg]) :
    Script.main env = Script.main { env with argv := [prog, pyStrip arg] } := by
  have h2 : ({ env with argv := [prog, pyStrip arg] } : Env).argv
      = [prog, pyStrip arg] := rfl
  by_cases hurl : isUrlStr (pyStrip arg) = true
  · have hurl2 : isUrlStr (pyStrip (pyStrip arg)) = true := by
      rw [pyStrip_idem]; exact hurl
    rw [main_url env prog arg h hurl,
      main_url _ prog (pyStrip arg) h2 hurl2, pyStrip_idem]
    rfl
  · have hurl1 : isUrlStr (pyStrip arg) = false := by simpa using hurl
    have hurl2 : isUrlStr (pyStrip (pyStrip arg)) = false := by
      rw [pyStrip_idem]; exact hurl1
    rw [main_local env prog arg h hurl1,
      main_local _ prog (pyStrip arg) h2 hurl2, pyStrip_idem]
    rfl

/-- C10 witness: the padded-URL run equals the run on the stripped
argument. -/
theorem C10_strip_first_witness :
    padUrlEnv.argv = ["upscale-app-icon.py", " http://example.com/icon.png"] ∧
      Script.main padUrlEnv =
        Script.main { padUrlEnv with argv :=
          ["upscale-app-icon.py", pyStrip " http://example.com/icon.png"] } :=
  ⟨rfl, C10_strip_first padUrlEnv _ _ rfl⟩

/-! ## C2: temporary-file cleanup -/

/-- C2: counterexample — a URL run whose fetch (urlretrieve) raises exits
with the temporary download file still on disk: `delete=False` prevents
removal at `with`-exit and the `try/finally os.unlink` has not been entered
yet, so cleanup is not guaranteed on the fetch-failure exit path. -/
theorem C2_counterexample :
    (Script.main fetchFailEnv).fetched = ["http://example.com/icon.png"] ∧
      (Script.main fetchFailEnv).exitCode = 1 ∧
      (Script.main fetchFailEnv).tmpAtExit = true :=
  ⟨by decide, by decide, by decide⟩

/-- C2 (amended): for a URL-dispatched argument, the temporary file still
exists at process exit iff urlretrieve itself failed; on every exit path
reached after a successful download (decode failure or normal completion)
the `finally: os.unlink` removes it before the process exits. -/
theorem C2_tmp_cleanup (env : Env) (prog arg : String)
    (h : env.argv = [prog, arg]) (hurl : isUrlStr (pyStrip arg) = true) :
    ((Script.main env).tmpAtExit = true ↔ env.fetch (pyStrip arg) = none) := by
  rw [main_url env prog arg h hurl]
  exact handleUrl_tmpAtExit env (pyStrip arg)

/-- C2 witness: the characterisation applied to the successful URL run;
its fetch succeeds, so the temporary file is gone at exit. -/
theorem C2_tmp_cleanup_witness :
    urlOkEnv.argv = ["upscale-app-icon.py", "https://example.com/icon.png"] ∧
      isUrlStr (pyStrip "https://example.com/icon.png") = true ∧
      ((Script.main urlOkEnv).tmpAtExit = true ↔
        urlOkEnv.fetch (pyStrip "https://example.com/icon.png") = none) :=
  ⟨rfl, by decide, C2_tmp_cleanup urlOkEnv _ _ rfl (by decide)⟩

/-! ## C3: the success line on stdout -/

/-- C3: counterexample — on a concrete successful run the single stdout
line is "Saved 1024x1024 app icon to <path>", which is not the bare
destination path the claim promises. -/
theorem C3_counterexample :
    (Script.main okEnv).exitCode = 0 ∧
      (Script.main okEnv).written.map SavedFile.path = some repoDest ∧
      (Script.main okEnv).stdout ≠ [repoDest] :=
  ⟨by decide, by decide, by decide⟩

/-- C3 (amended): on every successful run exactly one line is written to
standard output, namely the fixed prefix "Saved 1024x1024 app icon to "
followed by the absolute destination path. -/
theorem C3_stdout_line (env : Env) (h : (Script.main env).exitCode = 0) :
    ∃ sf, (Script.main env).written = some sf ∧
      (Script.main env).stdout = ["Saved 1024x1024 app icon to " ++ sf.path] := by
  obtain ⟨p, a, bytes, img, hpa, hd, hcase⟩ := main_success_cases env h
  rcases hcase with ⟨_, _, hm⟩ | ⟨_, _, hm⟩ <;>
    exact ⟨{ path := pyAbspath env.cwd (ICON_PATH env.scriptFile), format := "PNG",
             image := resizeNearest (convertRGBA img) 1024 1024 },
      by rw [hm]; rfl, by rw [hm]; rfl⟩

/-- C3 witness: the stdout characterisation applied to the concrete
successful local run. -/
theorem C3_stdout_line_witness :
    (Script.main okEnv).exitCode = 0 ∧
      ∃ sf, (Script.main okEnv).written = some sf ∧
        (Script.main okEnv).stdout = ["Saved 1024x1024 app icon to " ++ sf.path] :=
  ⟨by decide, C3_stdout_line okEnv (by decide)⟩

/-! ## C1: the output artifact on success -/

/-- C1: on every successful run, the file written to the destination is
saved with format "PNG", has mode "RGBA", measures exactly 1024x1024
pixels, and its content is the `Image.NEAREST` resize of the decoded
(RGBA-converted) source image. -/
theorem C1_success_output (env : Env) (h : (Script.main env).exitCode = 0) :
    ∃ bytes img, env.decode bytes = some img ∧
      (Script.main env).written = some
        { path := pyAbspath env.cwd (ICON_PATH env.scriptFile)
          format := "PNG"
          image := resizeNearest (convertRGBA img) 1024 1024 } ∧
      (resizeNearest (convertRGBA img) 1024 1024).width = 1024 ∧
      (resizeNearest (convertRGBA img) 1024 1024).height = 1024 ∧
      (resizeNearest (convertRGBA img) 1024 1024).mode = "RGBA" := by
  obtain ⟨p, a, bytes, img, hpa, hd, hcase⟩ := main_success_cases env h
  refine ⟨bytes, img, hd, ?_, rfl, rfl, rfl⟩
  rcases hcase with ⟨_, _, hm⟩ | ⟨_, _, hm⟩ <;> rw [hm] <;> rfl

/-- C1 witness: the output contract applied to the concrete successful
local run. -/
theorem C1_success_output_witness :
    (Script.main okEnv).exitCode = 0 ∧
      ∃ bytes img, okEnv.decode bytes = some img ∧
        (Script.main okEnv).written = some
          { path := pyAbspath okEnv.cwd (ICON_PATH okEnv.scriptFile)
            format := "PNG"
            image := resizeNearest (convertRGBA img) 1024 1024 } ∧
        (resizeNearest (convertRGBA img) 1024 1024).width = 1024 ∧
        (resizeNearest (convertRGBA img) 1024 1024).height = 1024 ∧
        (resizeNearest (convertRGBA img) 1024 1024).mode = "RGBA" :=
  ⟨by decide, C1_success_output okEnv (by decide)⟩

/-! ## C4: the destination path contract -/

theorem handleUrl_written_exit (env : Env) (s : String) (sf : SavedFile)
    (h : (handleUrl env s).written = some sf) :
    (handleUrl env s).exitCode = 0 := by
  cases hf : env.fetch s with
  | none => simp [handleUrl, hf] at h
  | some bytes =>
    cases hd : env.decode bytes with
    | none => simp [handleUrl, hf, hd] at h
    | some img => simp [handleUrl, hf, hd, finishRun]

theorem handleLocal_written_exit (env : Env) (s : String) (sf : SavedFile)
    (h : (handleLocal env s).written = some sf) :
    (handleLocal env s).exitCode = 0 := by
  cases hfd : env.fileData (pyAbspath env.cwd s) with
  | none => simp [handleLocal, hfd] at h
  | some bytes =>
    cases hd : env.decode bytes with
    | none => simp [handleLocal, hfd, hd] at h
    | some img => simp [handleLocal, hfd, hd, finishRun]

theorem main_written_exit (env : Env) (sf : SavedFile)
    (h : (Script.main env).written = some sf) :
    (Script.main env).exitCode = 0 := by
  by_cases hlen : env.argv.length = 2
  · obtain ⟨p, a, hpa⟩ := argv_pair_of_length env.argv hlen
    by_cases hurl : isUrlStr (pyStrip a) = true
    · rw [main_url env p a hpa hurl] at h ⊢
      exact handleUrl_written_exit env _ sf h
    · have hurl2 : isUrlStr (pyStrip a) = false := by simpa using hurl
      rw [main_local env p a hpa hurl2] at h ⊢
      exact handleLocal_written_exit env _ sf h
  · rw [main_wrong_argc env hlen] at h
    simp at h

theorem main_destExists_irrelevant (env : Env) (b : Bool) :
    Script.main { env with destExists := b } = Script.main env := by
  cases env
  rfl

/-- C4: whenever a file is written, its path is `ICON_PATH` resolved with
`abspath` — the fixed relative components appended to the script's own
directory; with an absolute `__file__` (Python >= 3.9) the result is the
same for every working directory, hence independent of the caller's cwd
and of the input argument; `os.makedirs` is called on the parent directory
of that path before the write; and the run never consults whether a file
already exists at the destination (it overwrites unconditionally). -/
theorem C4_destination (env : Env) (sf : SavedFile)
    (habs : isAbsPath env.scriptFile = true)
    (hw : (Script.main env).written = some sf) :
    sf.path = pyAbspath env.cwd (ICON_PATH env.scriptFile) ∧
    (∀ cwd2 : String, pyAbspath cwd2 (ICON_PATH env.scriptFile) = sf.path) ∧
    (Script.main env).madeDirs = some (pyDirname sf.path) ∧
    (∀ b : Bool, Script.main { env with destExists := b } = Script.main env) := by
  have h0 := main_written_exit env sf hw
  obtain ⟨p, a, bytes, img, hpa, hd, hcase⟩ := main_success_cases env h0
  have hpath : sf.path = pyAbspath env.cwd (ICON_PATH env.scriptFile) ∧
      (Script.main env).madeDirs
        = some (pyDirname (pyAbspath env.cwd (ICON_PATH env.scriptFile))) := by
    rcases hcase with ⟨_, _, hm⟩ | ⟨_, _, hm⟩ <;>
    · rw [hm] at hw
      have hinj := Option.some.inj hw
      constructor
      · rw [← hinj]
      · rw [hm]
        rfl
  refine ⟨hpath.1, ?_, ?_, fun b => main_destExists_irrelevant env b⟩
  · intro cwd2
    exact (pyAbspath_cwd_independent cwd2 env.cwd _
      (ICON_PATH_isAbs _ habs)).trans hpath.1.symm
  · rw [hpath.1]
    exact hpath.2

/-- The file written by the concrete successful local run. -/
def okSaved : SavedFile :=
  { path := repoDest, format := "PNG"
    image := resizeNearest (convertRGBA solidImg) 1024 1024 }

/-- C4 witness: the destination contract applied to the concrete
successful local run. -/
theorem C4_destination_witness :
    isAbsPath okEnv.scriptFile = true ∧
      (Script.main okEnv).written = some okSaved ∧
      okSaved.path = pyAbspath okEnv.cwd (ICON_PATH okEnv.scriptFile) ∧
      (Script.main okEnv).madeDirs = some (pyDirname okSaved.path) :=
  ⟨by decide, rfl, (C4_destination okEnv okSaved (by decide) rfl).1,
    (C4_destination okEnv okSaved (by decide) rfl).2.2.1⟩
